import Mathlib

/-!
Shallow embedding of `src/article_summarizer.py` (class `ArticleSummarizer`).

Modelling conventions:
* Python dicts with numeric values (`document_frequency`, the class-level
  `__word_frequency`) are modelled as total functions `String → ℕ` with
  default value 0; the code's two branches `d[w] = 1` (absent) and
  `d[w] += 1` (present) then both become "add one at `w`" (`dictIncr`).
* The collaborator functions imported from `tokenizer` and `tf_idf`
  (`tokenize_sentence`, `tokenize_word` with `only_noun=True`, `tf`, `idf`)
  are not part of this source file; they are parameters (`Collaborators`).
* The class body `__sentence_scores = []` / `__word_frequency = {}` creates
  attributes on the class object, shared by all instances.  `__init__` only
  mutates them (`append`, item assignment, the in-place weighting loop)
  until the final `self.__sentence_scores = sorted(...)`, which creates an
  instance attribute and leaves the mutated list on the class.  This shared
  class-level state is threaded explicitly as `ClassState`: `construct`
  takes the state the class attributes hold before the call and returns the
  instance together with the state they hold after it.  A fresh process
  starts at `ClassState.empty`.
* Python floats are modelled as ℚ; `int(x)` truncates toward zero
  (`pyTrunc`); the slice `l[0:n]` is `pySliceTo` (a negative `n` counts
  from the end); `sorted(..., key=itemgetter(0), reverse=True)` is the
  stable descending sort `List.insertionSort descBySc`.
-/

/-- The collaborator functions consumed by `ArticleSummarizer` (external
to this source file): sentence tokenizer, noun-filtered word tokenizer,
term frequency and inverse document frequency. -/
structure Collaborators where
  tokenize_sentence : String → List String
  tokenize_word : String → List String
  tf : String → (String → ℕ) → ℚ
  idf : String → ℕ → (String → ℕ) → ℚ

/-- The state held by the class-level attributes `__word_frequency` and
`__sentence_scores` of `ArticleSummarizer` (shared across instances). -/
structure ClassState where
  word_frequency : String → ℕ
  sentence_scores : List (ℚ × String)

/-- The class attributes at process start: `{}` and `[]`. -/
def ClassState.empty : ClassState :=
  ⟨fun _ => 0, []⟩

/-- One dict increment: `if w not in d: d[w] = 1 else: d[w] += 1`,
under the absent-means-0 convention. -/
def dictIncr (d : String → ℕ) (w : String) : String → ℕ :=
  fun x => if x = w then d x + 1 else d x

/-- All word tokens of the article, in order, with multiplicity: the
concatenation of `tokenize_word(sentence, only_noun=True)` over the
tokenized sentences. -/
def articleWords (C : Collaborators) (sentences : List String) : List String :=
  (sentences.map C.tokenize_word).flatten

/-- The word-occurrence loop of `__init__`: every occurrence of every word
increments the class-level `__word_frequency`. -/
def wfAfter (C : Collaborators) (st : ClassState) (sentences : List String) :
    String → ℕ :=
  (articleWords C sentences).foldl dictIncr st.word_frequency

/-- The `word_set` loop of `__init__`: each distinct word of the article
increments the caller-supplied `document_frequency` once.  `word_set` is a
Python set of the article's words; it is modelled as `dedup` (each distinct
word once; the final counts do not depend on iteration order). -/
def dfAfter (C : Collaborators) (document_frequency : String → ℕ)
    (sentences : List String) : String → ℕ :=
  (articleWords C sentences).dedup.foldl dictIncr document_frequency

/-- `__sentence_score`: average tf-idf of the sentence's words, or 0 when
the word tokenizer returns nothing (`if not words: return 0`). -/
def sentence_score (C : Collaborators) (wf : String → ℕ) (document_number : ℕ)
    (document_frequency : String → ℕ) (sentence : String) : ℚ :=
  let words := C.tokenize_word sentence
  if words = [] then 0
  else
    (words.map (fun w => C.tf w wf * C.idf w document_number document_frequency)).sum
      / (words.length : ℚ)

/-- The weight table of `__weigh_sentences_by_position`, as the source's
conditional chain on `distribution`. -/
def posWeight (distribution : ℚ) : ℚ :=
  if 0 ≤ distribution ∧ distribution < 0.1 then 0.17
  else if 0.1 ≤ distribution ∧ distribution < 0.2 then 0.23
  else if 0.2 ≤ distribution ∧ distribution < 0.3 then 0.14
  else if 0.3 ≤ distribution ∧ distribution < 0.4 then 0.08
  else if 0.4 ≤ distribution ∧ distribution < 0.5 then 0.05
  else if 0.5 ≤ distribution ∧ distribution < 0.6 then 0.04
  else if 0.6 ≤ distribution ∧ distribution < 0.7 then 0.06
  else if 0.7 ≤ distribution ∧ distribution < 0.8 then 0.04
  else if 0.8 ≤ distribution ∧ distribution < 0.9 then 0.04
  else 0.15

/-- `__weigh_sentences_by_position`: each entry of the (class-level) score
list is multiplied in place by the weight of `index / len(list)`. -/
def weighScores (scores : List (ℚ × String)) : List (ℚ × String) :=
  scores.enum.map
    (fun p => (p.2.1 * posWeight ((p.1 : ℚ) / (scores.length : ℚ)), p.2.2))

/-- The raw scored list as it stands after the scoring loop of `__init__`:
the entries already on the class-level `__sentence_scores`, then one
`[score, sentence]` pair appended per tokenized sentence.  Scoring runs
after both frequency loops, so it sees the updated tables and the
incremented document count. -/
def rawScored (C : Collaborators) (article : String) (document_number : ℕ)
    (document_frequency : String → ℕ) (st : ClassState) : List (ℚ × String) :=
  let sentences := C.tokenize_sentence article
  st.sentence_scores ++
    sentences.map
      (fun s =>
        (sentence_score C (wfAfter C st sentences) (document_number + 1)
          (dfAfter C document_frequency sentences) s, s))

/-- The comparison of `sorted(..., key=itemgetter(0), reverse=True)`:
`a` may stay before `b` iff `b`'s score is at most `a`'s. -/
def descBySc : (ℚ × String) → (ℚ × String) → Prop :=
  fun a b => b.1 ≤ a.1

instance : DecidableRel descBySc :=
  fun a b => inferInstanceAs (Decidable (b.1 ≤ a.1))

/-- The instance attributes of a constructed `ArticleSummarizer`. -/
structure Summarizer where
  sentences : List String
  document_number : ℕ
  document_frequency : String → ℕ
  sentence_scores : List (ℚ × String)
  ranked_sentences : List String

/-- `ArticleSummarizer.__init__`, with the class-level attribute state
threaded explicitly: returns the constructed instance and the state the
class attributes hold afterwards (the mutated word-frequency dict and the
in-place weighted, unsorted score list). -/
def construct (C : Collaborators) (article : String) (document_number : ℕ)
    (document_frequency : String → ℕ) (st : ClassState) :
    Summarizer × ClassState :=
  let sentences := C.tokenize_sentence article
  let weighted := weighScores (rawScored C article document_number document_frequency st)
  let ranked := List.insertionSort descBySc weighted
  (⟨sentences, document_number + 1,
      dfAfter C document_frequency sentences,
      ranked, ranked.map Prod.snd⟩,
    ⟨wfAfter C st sentences, weighted⟩)

/-- Python `int(q)` on a float: truncation toward zero. -/
def pyTrunc (q : ℚ) : ℤ :=
  if 0 ≤ q then ⌊q⌋ else ⌈q⌉

/-- Python slice `l[0:n]` with a possibly negative `n`: a negative stop
counts from the end of the list (clamped at 0). -/
def pySliceTo {α : Type} (l : List α) (n : ℤ) : List α :=
  if 0 ≤ n then l.take n.toNat else l.take (l.length - (-n).toNat)

/-- `ArticleSummarizer.get_top_sentences`. -/
def get_top_sentences (S : Summarizer) (percentage : ℚ) : List String :=
  let n := pyTrunc (percentage / 100 * (S.sentences.length : ℚ))
  S.sentences.filter (fun s => decide (s ∈ pySliceTo S.ranked_sentences n))

/-- The observable process state around a call of `get_top_sentences`: the
instance and the shared corpus structures the caller handed in. -/
structure ProcState where
  inst : Summarizer
  shared_document_frequency : String → ℕ
  shared_document_number : ℕ

/-- `get_top_sentences` with the observable state threaded explicitly: the
method body only reads `self.sentences` and `self.ranked_sentences` and
assigns nothing, so the outgoing state is the incoming one. -/
def get_top_sentencesSt (st : ProcState) (percentage : ℚ) :
    List String × ProcState :=
  let n := pyTrunc (percentage / 100 * (st.inst.sentences.length : ℚ))
  let top := st.inst.sentences.filter
    (fun s => decide (s ∈ pySliceTo st.inst.ranked_sentences n))
  (top, st)

/-! Concrete collaborator instantiations used to evaluate the model on
specific articles.  They satisfy the consumed-interface contracts (total,
order-preserving tokenizers; total scoring primitives). -/

/-- An empty caller-supplied `document_frequency` dict. -/
def dzero : String → ℕ := fun _ => 0

/-- Whole article as one sentence, whole sentence as one word, term
frequency reading the word-frequency table, constant idf. -/
def colsCount : Collaborators :=
  ⟨fun a => [a], fun s => [s], fun w wf => (wf w : ℚ), fun _ _ _ => 1⟩

/-- Whole article as one sentence, whole sentence as one word, constant
scoring primitives. -/
def colsConst : Collaborators :=
  ⟨fun a => [a], fun s => [s], fun _ _ => 1, fun _ _ _ => 1⟩

/-- A tokenizer pair splitting the article `"b.c"` into two sentences and
the sentence `"www"` into three occurrences of the word `"w"`. -/
def colsTwo : Collaborators :=
  ⟨fun a => if a = "b.c" then ["b", "c"] else [a],
   fun s => if s = "www" then ["w", "w", "w"] else [s],
   fun w wf => (wf w : ℚ), fun _ _ _ => 1⟩

/-- A tokenizer pair splitting the article `"p.q.r.s"` into four
sentences, with constant scoring primitives. -/
def colsFour : Collaborators :=
  ⟨fun a => if a = "p.q.r.s" then ["p", "q", "r", "s"] else [a],
   fun s => [s], fun _ _ => 1, fun _ _ _ => 1⟩

/-- A word tokenizer extracting no (noun) words from any sentence. -/
def colsNoWords : Collaborators :=
  ⟨fun a => [a], fun _ => [], fun _ _ => 1, fun _ _ _ => 1⟩

/-- A word tokenizer extracting no words from the sentence `"w"` and one
word from any other sentence, with constant scoring primitives. -/
def colsMixed : Collaborators :=
  ⟨fun a => [a], fun s => if s = "w" then [] else [s],
   fun _ _ => 1, fun _ _ _ => 1⟩

/-- An idf collaborator that agrees with `colsConst.idf` at document
count 1 but differs everywhere else. -/
def idfAlt : String → ℕ → (String → ℕ) → ℚ :=
  fun _ n _ => if n = 1 then 1 else 5

/-! Helper lemmas. -/

/-- Folding the dict-increment over a duplicate-free word list adds one at
exactly the listed words. -/
theorem foldl_dictIncr_eq : ∀ (L : List String), L.Nodup →
    ∀ (d : String → ℕ) (w : String),
    L.foldl dictIncr d w = d w + (if w ∈ L then 1 else 0)
  | [], _, d, w => by simp
  | x :: xs, hL, d, w => by
    have hx : x ∉ xs := (List.nodup_cons.mp hL).1
    have hxs : xs.Nodup := (List.nodup_cons.mp hL).2
    rw [List.foldl_cons, foldl_dictIncr_eq xs hxs (dictIncr d x) w]
    by_cases hwx : w = x
    · subst hwx
      simp [dictIncr, hx]
    · simp [dictIncr, hwx, List.mem_cons]

/-- Two entries read at positions `i < j` of a list form a sublist. -/
theorem pair_sublist_of_get2 {α : Type} : ∀ (l : List α) (i j : ℕ) (a b : α),
    i < j → l.get? i = some a → l.get? j = some b → List.Sublist [a, b] l
  | [], _, _, _, _, _, ha, _ => by simp at ha
  | x :: xs, 0, j, a, b, hij, ha, hb => by
    cases j with
    | zero => omega
    | succ j' =>
      simp only [List.get?] at ha hb
      cases ha
      exact List.Sublist.cons₂ x (List.singleton_sublist.mpr (List.get?_mem hb))
  | x :: xs, i' + 1, j, a, b, hij, ha, hb => by
    cases j with
    | zero => omega
    | succ j' =>
      simp only [List.get?] at ha hb
      exact List.Sublist.cons x
        (pair_sublist_of_get2 xs i' j' a b (by omega) ha hb)

/-! Claim theorems. -/

set_option maxRecDepth 2000

/-- Claim C1: the claim states that `ranked_sentences` always has the same
length as `sentences` and the same multiset of sentence strings.  The code
violates it: `__sentence_scores` is a class-level list shared across
instances, so the second construction appends onto the first article's
entries.  Here a second summarizer built for the one-sentence article
`"b"` (after one for `"a"`) reports the single sentence `["b"]` but ranks
two sentences, `["b", "a"]`. -/
theorem C1_ranked_sentences_leak_across_constructions :
    (construct colsCount "b" 0 dzero
        (construct colsCount "a" 0 dzero ClassState.empty).2).1.sentences = ["b"] ∧
    (construct colsCount "b" 0 dzero
        (construct colsCount "a" 0 dzero ClassState.empty).2).1.ranked_sentences
      = ["b", "a"] := by
  with_unfolding_all decide

/-- Claim C2: the claim states that the word-frequency table used for
scoring is fresh (empty) at the start of every construction.  The code
violates it: `__word_frequency` is a class-level dict that is never reset,
so after scoring the one-word article `"cat"` once it maps `"cat"` to 1,
and a second construction on the same text leaves it at 2 — the second
article is scored against counts carried over from the first. -/
theorem C2_word_frequency_carried_across_constructions :
    (construct colsCount "cat" 0 dzero ClassState.empty).2.word_frequency "cat" = 1 ∧
    (construct colsCount "cat" 0 dzero
        (construct colsCount "cat" 0 dzero ClassState.empty).2).2.word_frequency "cat"
      = 2 := by
  with_unfolding_all decide

/-- Claim C3: the claim states that sentence `i` of `N` article sentences
is weighted by `posWeight (i / N)` with the index taken in tokenization
order.  The code violates it on any construction after the first: the
weighting loop enumerates the class-level score list, which still holds
the previous article's entries.  Here the second article (`"x"`, one
sentence, so the claim demands weight `posWeight (0 / 1) = 0.17`) has its
raw score 1 multiplied by `0.04 = 1/25` (position 1 of the combined list
of length 2), while the first article's zero-scored entry still occupies
position 0. -/
theorem C3_position_weight_uses_class_list_not_article :
    (construct colsMixed "x" 0 dzero
        (construct colsMixed "w" 0 dzero ClassState.empty).2).2.sentence_scores
      = [(0, "w"), (1/25, "x")] ∧
    (construct colsMixed "x" 0 dzero
        (construct colsMixed "w" 0 dzero ClassState.empty).2).1.sentences = ["x"] ∧
    posWeight ((0 : ℚ) / 1) = 17/100 := by
  with_unfolding_all decide

/-- Claim C4 (counterexample): the claim states `get_top_sentences`
returns an empty sequence for every percentage ≤ 0.  For `percentage =
-25` on a four-sentence article, `n = int(-25 / 100 * 4) = -1` and the
Python slice `ranked_sentences[0:-1]` keeps all but the last ranked entry,
so the call returns three sentences, not zero. -/
theorem C4_negative_percentage_returns_sentences :
    get_top_sentences (construct colsFour "p.q.r.s" 0 dzero ClassState.empty).1 (-25)
      = ["p", "q", "r"] := by
  with_unfolding_all decide

/-- Claim C4 (amended): `get_top_sentences` returns an empty sequence for
every percentage ≤ 0 whose computed count truncates to 0, i.e. whenever
`percentage * N > -100`; in particular for `percentage = 0` on any
article. -/
theorem C4_amended_nonpositive_small_percentage_empty
    (S : Summarizer) (p : ℚ) (h1 : p ≤ 0)
    (h2 : -100 < p * (S.sentences.length : ℚ)) :
    get_top_sentences S p = [] := by
  have hlen : (0 : ℚ) ≤ (S.sentences.length : ℚ) := Nat.cast_nonneg _
  have hp : p / 100 ≤ 0 := by linarith
  have hq0 : p / 100 * (S.sentences.length : ℚ) ≤ 0 := by
    have := mul_le_mul_of_nonneg_right hp hlen
    simpa using this
  have hq1 : (-1 : ℚ) < p / 100 * (S.sentences.length : ℚ) := by
    have heq : p / 100 * (S.sentences.length : ℚ)
        = p * (S.sentences.length : ℚ) / 100 := by ring
    rw [heq]
    linarith
  have hn : pyTrunc (p / 100 * (S.sentences.length : ℚ)) = 0 := by
    unfold pyTrunc
    split
    · next h =>
        rw [le_antisymm hq0 h]
        exact Int.floor_zero
    · exact Int.ceil_eq_zero_iff.mpr ⟨hq1, hq0⟩
  simp only [get_top_sentences, hn]
  simp [pySliceTo]

/-- Claim C4 amended, witnessed at `percentage = -1` on a one-sentence
article. -/
theorem C4_amended_witness :
    get_top_sentences (construct colsConst "a" 0 dzero ClassState.empty).1 (-1)
      = [] :=
  C4_amended_nonpositive_small_percentage_empty
    (construct colsConst "a" 0 dzero ClassState.empty).1 (-1)
    (by norm_num) (by with_unfolding_all decide)

/-- Claim C5: the claim states that `get_top_sentences(100)` returns the
article's full sentence multiset.  The code violates it on any
construction after the first: the leaked class-level entries occupy slots
of the top-`n` ranked slice.  Here the second article has sentences
`["b", "c"]`, but the first article's high-scoring leaked entry fills one
of the `n = 2` top slots, so only `["b"]` is returned. -/
theorem C5_percentage_100_after_prior_construction_incomplete :
    (construct colsTwo "b.c" 0 dzero
        (construct colsTwo "www" 0 dzero ClassState.empty).2).1.sentences
      = ["b", "c"] ∧
    get_top_sentences
        (construct colsTwo "b.c" 0 dzero
          (construct colsTwo "www" 0 dzero ClassState.empty).2).1 100
      = ["b"] := by
  with_unfolding_all decide

/-- Claim C6: a sentence whose (noun-filtered) word tokenization is empty
has raw score exactly 0 — `__sentence_score` short-circuits before the
average is formed, so no division happens. -/
theorem C6_zero_words_raw_score_zero
    (C : Collaborators) (wf : String → ℕ) (dn : ℕ) (df : String → ℕ)
    (s : String) (h : C.tokenize_word s = []) :
    sentence_score C wf dn df s = 0 := by
  simp [sentence_score, h]

/-- Claim C6, witnessed on a collaborator that extracts no words. -/
theorem C6_witness :
    colsNoWords.tokenize_word "s" = [] ∧
    sentence_score colsNoWords dzero 1 dzero "s" = 0 :=
  ⟨rfl, C6_zero_words_raw_score_zero colsNoWords dzero 1 dzero "s" rfl⟩

/-- Claim C7: construction increments the shared document-frequency entry
of each distinct word appearing anywhere in the article by exactly 1
(presence, not occurrence count), and leaves every other entry unchanged —
in particular no entry is ever decremented. -/
theorem C7_document_frequency_increment
    (C : Collaborators) (article : String) (dn : ℕ) (df : String → ℕ)
    (st : ClassState) (w : String) :
    (construct C article dn df st).1.document_frequency w =
      df w + (if w ∈ articleWords C (C.tokenize_sentence article) then 1 else 0) := by
  show dfAfter C df (C.tokenize_sentence article) w = _
  unfold dfAfter
  rw [foldl_dictIncr_eq _ (List.nodup_dedup _)]
  simp [List.mem_dedup]

/-- Claim C8: the document count stored on the instance is
`document_number + 1`, and every idf computation of the construction uses
exactly that count: two idf collaborators that agree at `document_number +
1` (and may differ everywhere else) produce identical results. -/
theorem C8_idf_uses_incremented_document_count
    (C : Collaborators) (idf2 : String → ℕ → (String → ℕ) → ℚ)
    (article : String) (dn : ℕ) (df : String → ℕ) (st : ClassState)
    (h : ∀ w d, C.idf w (dn + 1) d = idf2 w (dn + 1) d) :
    (construct C article dn df st).1.document_number = dn + 1 ∧
    construct ⟨C.tokenize_sentence, C.tokenize_word, C.tf, idf2⟩ article dn df st
      = construct C article dn df st := by
  refine ⟨rfl, ?_⟩
  have hss : ∀ (wf dfa : String → ℕ) (s : String),
      sentence_score ⟨C.tokenize_sentence, C.tokenize_word, C.tf, idf2⟩ wf (dn + 1) dfa s
        = sentence_score C wf (dn + 1) dfa s := by
    intro wf dfa s
    have harg : (fun w => C.tf w wf * idf2 w (dn + 1) dfa)
        = fun w => C.tf w wf * C.idf w (dn + 1) dfa :=
      funext fun w => by rw [h w dfa]
    simp only [sentence_score, harg]
  simp only [construct, rawScored, wfAfter, dfAfter, articleWords, hss]

/-- Claim C8, witnessed with an idf collaborator differing from
`colsConst.idf` away from document count 1. -/
theorem C8_witness :
    (construct colsConst "a" 0 dzero ClassState.empty).1.document_number = 1 ∧
    construct ⟨colsConst.tokenize_sentence, colsConst.tokenize_word, colsConst.tf, idfAlt⟩
        "a" 0 dzero ClassState.empty
      = construct colsConst "a" 0 dzero ClassState.empty :=
  C8_idf_uses_incremented_document_count colsConst idfAlt "a" 0 dzero
    ClassState.empty (fun _ _ => rfl)

/-- Claim C9: the descending sort is stable: in a construction from fresh
class state, if the weighted score list has entries `a` at position `i`
and `b` at position `j > i` (original tokenization order) with exactly
equal scores, their sentence strings keep that relative order inside
`ranked_sentences`. -/
theorem C9_equal_scores_keep_original_order
    (C : Collaborators) (article : String) (dn : ℕ) (df : String → ℕ)
    (i j : ℕ) (a b : ℚ × String) (hij : i < j)
    (ha : (weighScores (rawScored C article dn df ClassState.empty)).get? i = some a)
    (hb : (weighScores (rawScored C article dn df ClassState.empty)).get? j = some b)
    (heq : a.1 = b.1) :
    List.Sublist [a.2, b.2]
      (construct C article dn df ClassState.empty).1.ranked_sentences := by
  have hsub : List.Sublist [a, b] (weighScores (rawScored C article dn df ClassState.empty)) :=
    pair_sublist_of_get2 _ i j a b hij ha hb
  have hst : List.Sublist [a, b]
      (List.insertionSort descBySc (weighScores (rawScored C article dn df ClassState.empty))) :=
    List.pair_sublist_insertionSort (show descBySc a b from le_of_eq heq.symm) hsub
  exact hst.map Prod.snd

/-- Claim C9, witnessed on a four-sentence article whose last two
sentences tie at weighted score `1/25`. -/
theorem C9_witness :
    List.Sublist ["r", "s"]
      (construct colsFour "p.q.r.s" 0 dzero ClassState.empty).1.ranked_sentences :=
  C9_equal_scores_keep_original_order colsFour "p.q.r.s" 0 dzero 2 3
    (1/25, "r") (1/25, "s") (by decide)
    (by with_unfolding_all decide) (by with_unfolding_all decide)
    (by with_unfolding_all decide)

/-- Claim C10: `get_top_sentences` leaves all observable state unchanged —
the instance (its `sentences`, `ranked_sentences`, scores and document
count) and the shared corpus structures are exactly the incoming ones, a
repeated call with the same argument returns the same result, and the
result is the pure `get_top_sentences` of the instance. -/
theorem C10_get_top_sentences_is_pure (st : ProcState) (p : ℚ) :
    (get_top_sentencesSt st p).2 = st ∧
    (get_top_sentencesSt st p).1 = (get_top_sentencesSt (get_top_sentencesSt st p).2 p).1 ∧
    (get_top_sentencesSt st p).1 = get_top_sentences st.inst p :=
  ⟨rfl, rfl, rfl⟩
